import Mathlib

/-!
# Dangosan: a multi-lane in-process job scheduler

Shallow embedding of the `Dangosan` scheduler (repository `hikouki/dango`).
The repository ships two variants of the class:

* the **event variant** (`src/unnamed/part_002`, and the second half of
  `src/Dangosan.ts`): synchronous `enqueue`/`dequeue`, per-lane event
  listeners (`run`, `success`, `fail`, `done`), per-lane `slotSize`
  configuration via `options.queue[key].slotSize`, and an `execute` driver
  with a `try`/`catch` around `worker.perform()`;
* the **persistence variant** (first half of `src/Dangosan.ts`): `async`
  operations persisting the lane registry through a `Storage` adapter,
  `restore` repairing interrupted lanes, an `async buildQueue`, and an
  `execute` driver without events.

Definitions below are translated from those sources.  Slots are compared by
reference in JavaScript; we model a slot as an opaque identifier.  A worker's
`perform()` is an external capability whose settlement (fulfilled or
rejected, with a rejection value) is supplied as an explicit parameter to the
driver model.
-/

namespace Dango

/-- The `Queue.status` field: `"idle" | "running"`. -/
inductive Status where
  | idle
  | running
deriving DecidableEq

/-- A `Slot` holds a worker (live JS closure).  Scheduler logic only moves
slots around and compares them by reference, so we model a slot as an opaque
identity. -/
structure Slot where
  id : Nat
deriving DecidableEq

/-- The per-lane `Queue` record:
`{ status; slots; runningWorker; slotSize }` (`slotSize : number | null`). -/
structure Queue where
  status : Status
  slots : List Slot
  runningWorker : Option Slot
  slotSize : Option Nat
deriving DecidableEq

/-- The lane registry `this.lane : { [key: string]: Queue }`, modelled as an
association list keyed by the lane key. -/
abbrev LaneReg := List (String × Queue)

/-- Property lookup `this.lane[key]`: first binding wins, `none` models
JavaScript `undefined`. -/
def lookupLane : LaneReg → String → Option Queue
  | [], _ => none
  | (k', q) :: rest, k => if k' = k then some q else lookupLane rest k

/-- Property assignment `this.lane[key] = q`: replaces the first binding for
`key`, or appends a fresh one. -/
def setLane : LaneReg → String → Queue → LaneReg
  | [], k, q => [(k, q)]
  | (k', q') :: rest, k, q =>
      if k' = k then (k, q) :: rest else (k', q') :: setLane rest k q

/-- The `options.queue` map of the event variant: lane key ↦ `{ slotSize?: number }`.
The outer `Option` models the whole per-lane record being absent; the inner
`Option` models `slotSize` being `undefined`. -/
abbrev Options := List (String × Option Nat)

/-- Lookup of `this.options.queue[key]`. -/
def lookupOpt : Options → String → Option (Option Nat)
  | [], _ => none
  | (k', v) :: rest, k => if k' = k then some v else lookupOpt rest k

/-- Errors surfaced by the embedded operations: the `ThrottledError` thrown
by `enqueue`, and the JavaScript `TypeError` raised when a property of
`undefined` is accessed. -/
inductive DangoError where
  | throttled
  | typeError
deriving DecidableEq

/-- Method `buildQueue(key)` of the event variant (part_002 lines 147-163): a fresh
idle queue whose `slotSize` comes from `options.queue[key].slotSize` when
that record exists and the field is defined, else `null`. -/
def buildQueue (cfg : Option (Option Nat)) : Queue :=
  { status := Status.idle
    slots := []
    runningWorker := none
    slotSize :=
      match cfg with
      | some (some n) => some n
      | some none => none
      | none => none }

/-- Method `getQueue(key)` (part_002 lines 143-145): `this.lane[key] ||
this.buildQueue(key)`.  Returns the queue together with the registry after
the call (`buildQueue` stores the fresh queue under the key). -/
def getQueue (opts : Options) (lane : LaneReg) (key : String) :
    Queue × LaneReg :=
  match lookupLane lane key with
  | some q => (q, lane)
  | none =>
      let q := buildQueue (lookupOpt opts key)
      (q, setLane lane key q)

/-- Method `filledQueue(key)` body on an existing queue (part_002 lines 136-141):
`slotSize === null` is never full, otherwise
`(runningWorker ? 1 : 0) + slots.length >= slotSize`. -/
def filledQueueB (q : Queue) : Bool :=
  match q.slotSize with
  | none => false
  | some n => decide (n ≤ (if q.runningWorker.isSome then 1 else 0) + q.slots.length)

/-- Method `enqueue(key, slot)` of the event variant (part_002 lines 66-70):
`getQueue`, throw `ThrottledError` when `filledQueue`, else push to the tail
of `slots`.  Result: registry after the call, and the error thrown (if any).
The registry is reported even on a throw because `getQueue` may have lazily
created the lane before the throttle check. -/
def enqueue (opts : Options) (lane : LaneReg) (key : String) (slot : Slot) :
    LaneReg × Option DangoError :=
  let p := getQueue opts lane key
  if filledQueueB p.1 then (p.2, some DangoError.throttled)
  else (setLane p.2 key { p.1 with slots := p.1.slots ++ [slot] }, none)

/-- Method `dequeue(key)` (part_002 lines 72-75, and persistence variant lines
59-63 of `src/Dangosan.ts`): `this.lane[key].slots.shift()`.  When the key
has no lane, `this.lane[key]` is `undefined` and reading `.slots` raises a
`TypeError`; otherwise `shift` removes and returns the head (or
`undefined` on an empty array). -/
def dequeue (lane : LaneReg) (key : String) :
    Except DangoError (Option Slot × LaneReg) :=
  match lookupLane lane key with
  | none => Except.error DangoError.typeError
  | some q =>
      match q.slots with
      | [] => Except.ok (none, lane)
      | s :: rest => Except.ok (some s, setLane lane key { q with slots := rest })

/-- Method `terminateRunningWorker(key)` (part_002 lines 106-111): `getQueue`, and
when the lane has a `runningWorker`, await its worker's `terminate()`.
Result: the slot whose worker had `terminate()` invoked (`none` = no call
was made), and the registry after the call.  No queue field is written. -/
def terminateRunningWorker (opts : Options) (lane : LaneReg) (key : String) :
    Option Slot × LaneReg :=
  let p := getQueue opts lane key
  (p.1.runningWorker, p.2)

/-! ## The execution driver (event variant) -/

/-- The four supported event kinds (`SUPPORTED_EVENTS`). -/
inductive Event where
  | run
  | success
  | fail
  | done
deriving DecidableEq

/-- One lane's share of a driver tick (`execute`, part_002 lines 179-218),
as an end-to-end function.  JavaScript settles `await slot.worker.perform()`
externally, so the settlement is an explicit parameter: `Except.ok ()` for a
fulfilled promise, `Except.error e` for a rejection with value `e`.

Source steps: skip if `status !== "idle"`; `dequeue` (shift) and skip if
empty; set `runningWorker`/`status`; publish `run`; `try { await perform();
publish success } catch (e) { console.warn(e); publish fail }`; set
`status = "idle"`, `runningWorker = null`; publish `done`.

Result: final queue, the published events in publication order (each paired
with the slot handed to the listeners), and the `console.warn` log of caught
worker errors. -/
def executeLane (q : Queue) (o : Except Nat Unit) :
    Queue × List (Event × Slot) × List Nat :=
  if q.status ≠ Status.idle then (q, [], [])
  else
    match q.slots with
    | [] => (q, [], [])
    | s :: rest =>
        let mid : List (Event × Slot) × List Nat :=
          match o with
          | Except.ok _ => ([(Event.success, s)], [])
          | Except.error e => ([(Event.fail, s)], [e])
        ({ q with status := Status.idle, slots := rest, runningWorker := none },
         (Event.run, s) :: mid.1 ++ [(Event.done, s)],
         mid.2)

/-- A whole driver tick: `execute` iterates over every key of the registry
and runs the lane body for each.  Lanes touch disjoint state, so the tick is
the pointwise image of `executeLane`; `o` maps each lane key to the
settlement of the worker `perform()` started for it on this tick.  Result:
registry after the tick, published events tagged by lane, concatenated warn
log. -/
def executeAll (lane : LaneReg) (o : String → Except Nat Unit) :
    LaneReg × List (String × Event × Slot) × List Nat :=
  match lane with
  | [] => ([], [], [])
  | (k, q) :: rest =>
      let r := executeLane q (o k)
      let rs := executeAll rest o
      ((k, r.1) :: rs.1,
       r.2.1.map (fun p => (k, p.1, p.2)) ++ rs.2.1,
       r.2.2 ++ rs.2.2)

/-! ## Recovery (persistence variant, `src/Dangosan.ts`) -/

/-- The repair applied to one persisted queue by `restore`
(`src/Dangosan.ts` lines 89-97): a lane found with `status === "running"`
and a non-null `runningWorker` gets that slot unshifted onto the head of
`slots`, `runningWorker` cleared and `status` reset to `"idle"`; any other
lane is kept as read. -/
def restoreQueue (q : Queue) : Queue :=
  match q.status, q.runningWorker with
  | Status.running, some s =>
      { q with slots := s :: q.slots, runningWorker := none,
               status := Status.idle }
  | _, _ => q

/-- Method `restore()` (`src/Dangosan.ts` lines 85-98): rebuilds the registry by
mapping the repair over every persisted lane. -/
def restore (lane : LaneReg) : LaneReg :=
  lane.map (fun p => (p.1, restoreQueue p.2))

/-! ## The persistence variant's lazy queue construction

In `src/Dangosan.ts` the method `buildQueue` is declared `async`, so a call
returns a `Promise<Queue>` while still synchronously storing the fresh queue
in `this.lane[key]`.  `getQueue` hands that promise straight back for a
missing key.  We track whether the caller received the queue object itself
or a promise wrapping it. -/

/-- The value `getQueue` hands to its caller in the persistence variant:
either the stored `Queue` object or the `Promise<Queue>` returned by the
`async buildQueue`. -/
inductive QueueOrPromise where
  | val (q : Queue)
  | promise (q : Queue)
deriving DecidableEq

/-- Method `buildQueue(key)` of the persistence variant (`src/Dangosan.ts` lines
111-122): the fresh queue hardcodes `slotSize: null` — this variant's
options carry no per-lane configuration at all. -/
def buildQueueP : Queue :=
  { status := Status.idle, slots := [], runningWorker := none,
    slotSize := none }

/-- Method `getQueue(key)` of the persistence variant (`src/Dangosan.ts` lines
107-109): `this.lane[key] || this.buildQueue(key)`.  For a missing key the
caller receives the *promise* from the `async` `buildQueue`, while the
registry already holds the fresh queue (the assignment `this.lane[key] =
newQueue` runs synchronously before the first suspension point). -/
def getQueueP (lane : LaneReg) (key : String) : QueueOrPromise × LaneReg :=
  match lookupLane lane key with
  | some q => (QueueOrPromise.val q, lane)
  | none => (QueueOrPromise.promise buildQueueP, setLane lane key buildQueueP)

/-- Method `filledQueue(key)` of the persistence variant (`src/Dangosan.ts` lines
74-79).  If `getQueue` yields a promise (impossible once the key is stored,
but modelled for fidelity), reading `queue.slots.length` on the promise
raises a `TypeError`. -/
def filledQueueP (lane : LaneReg) (key : String) :
    Except DangoError (Bool × LaneReg) :=
  match getQueueP lane key with
  | (QueueOrPromise.val q, l) => Except.ok (filledQueueB q, l)
  | (QueueOrPromise.promise _, _) => Except.error DangoError.typeError

/-- Method `enqueue(key, slot)` of the persistence variant (`src/Dangosan.ts`
lines 52-57): `const lane = this.getQueue(key); if (this.filledQueue(key))
throw ThrottledError; lane.slots.push(slot)`.

When `getQueue` returned the promise (never-referenced key), the second
`getQueue` inside `filledQueue` finds the stored fresh queue (`slotSize:
null`, hence not full), and then `lane.slots.push(slot)` reads `.slots` on
the `Promise` object — `undefined` — and the `.push` call raises a
`TypeError`.  Result: registry after the call and the error thrown, if
any. -/
def enqueueP (lane : LaneReg) (key : String) (slot : Slot) :
    LaneReg × Option DangoError :=
  match getQueueP lane key with
  | (QueueOrPromise.val q, lane1) =>
      match filledQueueP lane1 key with
      | Except.error e => (lane1, some e)
      | Except.ok (true, l2) => (l2, some DangoError.throttled)
      | Except.ok (false, l2) =>
          (setLane l2 key { q with slots := q.slots ++ [slot] }, none)
  | (QueueOrPromise.promise _, lane1) =>
      match filledQueueP lane1 key with
      | Except.error e => (lane1, some e)
      | Except.ok (true, l2) => (l2, some DangoError.throttled)
      | Except.ok (false, l2) => (l2, some DangoError.typeError)

/-! ## Iterated enqueue (for the throttling scenario) -/

/-- A sequence of `enqueue` calls on one lane, stopping at the first thrown
error (an exception aborts the calling sequence). -/
def enqueueMany (opts : Options) (lane : LaneReg) (key : String) :
    List Slot → LaneReg × Option DangoError
  | [] => (lane, none)
  | s :: rest =>
      match enqueue opts lane key s with
      | (l1, none) => enqueueMany opts l1 key rest
      | (l1, some e) => (l1, some e)

/-! ## Per-lane scheduler transition system

The event variant's driver body (part_002 lines 179-218) runs synchronously
from the `status !== "idle"` check through the assignments
`queue.runningWorker = slot; queue.status = "running"` — JavaScript yields
control only at `await slot.worker.perform()`.  The states of one lane are
therefore its queue contents plus the executions started but not yet
settled; each atomic segment of the source is one labelled step.  Lanes
share no state, so the whole scheduler is the product of these per-lane
systems and per-lane invariants transfer directly. -/

/-- One lane's scheduler state: the queue record plus the in-flight
executions (dequeued slots whose `perform()` promise has not settled). -/
structure LaneExec where
  q : Queue
  inFlight : List Slot
deriving DecidableEq

/-- Labels for the atomic segments acting on one lane. -/
inductive StepLabel where
  | enqOk (s : Slot)
  | enqFull (s : Slot)
  | skip
  | start (s : Slot)
  | settle (s : Slot)
  | terminate
deriving DecidableEq

/-- The atomic transitions of one lane, read off the source:

* `enqOk`/`enqFull`: `enqueue` on this lane's key (part_002 lines 66-70) —
  the throttle check, then push or throw;
* `skipBusy`: a tick finds `status !== "idle"` and returns (line 183);
* `skipEmpty`: a tick finds the lane idle and `slots` empty (line 189);
* `start`: a tick finds the lane idle with a head slot, shifts it, sets
  `runningWorker` and `status = "running"`, publishes `run`, and calls
  `perform()` — one synchronous segment (lines 183-200);
* `settle`: a started `perform()` settles and the driver's continuation
  runs: `status = "idle"`, `runningWorker = null`, publish `done`
  (lines 199-217);
* `terminate`: `terminateRunningWorker` — writes no queue field
  (lines 106-111). -/
inductive Step : LaneExec → StepLabel → LaneExec → Prop where
  | enqOk (st : LaneExec) (s : Slot) :
      filledQueueB st.q = false →
      Step st (StepLabel.enqOk s)
        ⟨{ st.q with slots := st.q.slots ++ [s] }, st.inFlight⟩
  | enqFull (st : LaneExec) (s : Slot) :
      filledQueueB st.q = true →
      Step st (StepLabel.enqFull s) st
  | skipBusy (st : LaneExec) :
      st.q.status ≠ Status.idle →
      Step st StepLabel.skip st
  | skipEmpty (st : LaneExec) :
      st.q.status = Status.idle →
      st.q.slots = [] →
      Step st StepLabel.skip st
  | start (st : LaneExec) (s : Slot) (rest : List Slot) :
      st.q.status = Status.idle →
      st.q.slots = s :: rest →
      Step st (StepLabel.start s)
        ⟨{ st.q with status := Status.running, slots := rest,
                     runningWorker := some s },
         s :: st.inFlight⟩
  | settle (st : LaneExec) (s : Slot) (rest : List Slot) :
      st.inFlight = s :: rest →
      Step st (StepLabel.settle s)
        ⟨{ st.q with status := Status.idle, runningWorker := none }, rest⟩
  | terminate (st : LaneExec) :
      Step st StepLabel.terminate st

/-- A lane's initial state: the queue built by `buildQueue` for its
configuration, with nothing in flight. -/
def initLane (cfg : Option (Option Nat)) : LaneExec :=
  ⟨buildQueue cfg, []⟩

/-- States of one lane reachable from its initial state. -/
inductive ReachableLane (cfg : Option (Option Nat)) : LaneExec → Prop where
  | init : ReachableLane cfg (initLane cfg)
  | step {st st' : LaneExec} {l : StepLabel} :
      ReachableLane cfg st → Step st l st' → ReachableLane cfg st'

/-- The per-lane safety invariant: `status = running` iff `runningWorker`
is set, and the number of in-flight executions is `1` exactly in the
running state, `0` otherwise. -/
def LaneInv (st : LaneExec) : Prop :=
  (st.q.status = Status.running ↔ st.q.runningWorker.isSome = true)
  ∧ st.inFlight.length = (if st.q.status = Status.running then 1 else 0)

/-! ## Registry lemmas -/

theorem lookup_setLane_self (l : LaneReg) (k : String) (q : Queue) :
    lookupLane (setLane l k q) k = some q := by
  induction l with
  | nil => simp [setLane, lookupLane]
  | cons p rest ih =>
      by_cases h : p.1 = k
      · simp [setLane, h, lookupLane]
      · simp [setLane, h, lookupLane, ih]

theorem setLane_setLane (l : LaneReg) (k : String) (a b : Queue) :
    setLane (setLane l k a) k b = setLane l k b := by
  induction l with
  | nil => simp [setLane]
  | cons p rest ih =>
      by_cases h : p.1 = k
      · simp [setLane, h]
      · simp [setLane, h, ih]

theorem setLane_lookup_self (l : LaneReg) (k : String) (q : Queue)
    (h : lookupLane l k = some q) : setLane l k q = l := by
  induction l with
  | nil => simp [lookupLane] at h
  | cons p rest ih =>
      obtain ⟨k', q'⟩ := p
      by_cases hk : k' = k
      · subst hk
        simp only [lookupLane, if_true, eq_self_iff_true, Option.some.injEq] at h
        subst h
        simp [setLane]
      · simp only [lookupLane, if_neg hk] at h
        simp [setLane, hk, ih h]

theorem lookup_restore (l : LaneReg) (k : String) :
    lookupLane (restore l) k = (lookupLane l k).map restoreQueue := by
  induction l with
  | nil => simp [restore, lookupLane]
  | cons p rest ih =>
      by_cases h : p.1 = k
      · simp [restore, lookupLane, h]
      · simpa [restore, lookupLane, h] using ih

/-! ## The per-lane invariant -/

theorem laneInv_init (cfg : Option (Option Nat)) : LaneInv (initLane cfg) := by
  constructor <;> simp [initLane, buildQueue, LaneInv]

theorem laneInv_step {st st' : LaneExec} {l : StepLabel}
    (hinv : LaneInv st) (hstep : Step st l st') : LaneInv st' := by
  cases hstep with
  | enqOk s hfull => exact hinv
  | enqFull s hfull => exact hinv
  | skipBusy hbusy => exact hinv
  | skipEmpty hidle hempty => exact hinv
  | start s rest hidle hslots =>
      have hlen : st.inFlight.length = 0 := by
        have h2 := hinv.2
        rw [hidle] at h2
        simpa using h2
      refine ⟨by simp, ?_⟩
      simp [List.length_eq_zero.mp hlen]
  | settle s rest hfl =>
      have h2 := hinv.2
      rw [hfl] at h2
      have hrest : rest = [] := by
        by_cases hrun : st.q.status = Status.running
        · rw [if_pos hrun] at h2
          simp at h2
          exact h2
        · rw [if_neg hrun] at h2
          simp at h2
      refine ⟨by simp, ?_⟩
      simp [hrest]
  | terminate => exact hinv

theorem reachable_laneInv {cfg : Option (Option Nat)} {st : LaneExec}
    (h : ReachableLane cfg st) : LaneInv st := by
  induction h with
  | init => exact laneInv_init cfg
  | step hr hs ih => exact laneInv_step ih hs

/-- C1: per-lane mutual exclusion.  At every reachable state of a lane:
`status = running` iff `runningWorker` is set; at most one execution of the
lane is in flight; and no `start` step (dequeue-and-run) is possible while
the lane is not idle, in particular while an execution is in flight. -/
theorem C1_per_lane_mutual_exclusion (cfg : Option (Option Nat))
    (st : LaneExec) (h : ReachableLane cfg st) :
    (st.q.status = Status.running ↔ st.q.runningWorker.isSome = true)
    ∧ st.inFlight.length ≤ 1
    ∧ (st.q.status ≠ Status.idle →
        ∀ (s : Slot) (st' : LaneExec), ¬ Step st (StepLabel.start s) st')
    ∧ (st.inFlight ≠ [] →
        ∀ (s : Slot) (st' : LaneExec), ¬ Step st (StepLabel.start s) st') := by
  have hinv := reachable_laneInv h
  have hnostart : st.q.status ≠ Status.idle →
      ∀ (s : Slot) (st' : LaneExec), ¬ Step st (StepLabel.start s) st' := by
    intro hne s st' hstep
    cases hstep with
    | start _ _ hidle _ => exact hne hidle
  refine ⟨hinv.1, ?_, hnostart, ?_⟩
  · rw [hinv.2]
    split <;> simp
  · intro hfl
    apply hnostart
    intro hidle
    have h2 := hinv.2
    rw [hidle] at h2
    simp at h2
    exact hfl h2

/-- The concrete lane state used to witness C1: the lane of an unbounded
configuration after one accepted enqueue of slot `0` and the driver's
`start` segment for it. -/
def c1State : LaneExec :=
  ⟨⟨Status.running, [], some ⟨0⟩, none⟩, [⟨0⟩]⟩

/-- Witness for C1 at the reachable state `c1State`. -/
theorem C1_per_lane_mutual_exclusion_witness :
    (c1State.q.status = Status.running ↔ c1State.q.runningWorker.isSome = true)
    ∧ c1State.inFlight.length ≤ 1
    ∧ (c1State.q.status ≠ Status.idle →
        ∀ (s : Slot) (st' : LaneExec), ¬ Step c1State (StepLabel.start s) st')
    ∧ (c1State.inFlight ≠ [] →
        ∀ (s : Slot) (st' : LaneExec), ¬ Step c1State (StepLabel.start s) st') :=
  C1_per_lane_mutual_exclusion none c1State
    (ReachableLane.step
      (ReachableLane.step ReachableLane.init
        (Step.enqOk (initLane none) ⟨0⟩ rfl))
      (Step.start ⟨⟨Status.idle, [⟨0⟩], none, none⟩, []⟩ ⟨0⟩ [] rfl rfl))

/-! ## Throttling -/

theorem enqueueMany_below_cap (opts : Options) (k : String) (N : Nat) :
    ∀ (ss : List Slot) (lane : LaneReg) (pre : List Slot),
      lookupLane lane k = some ⟨Status.idle, pre, none, some N⟩ →
      pre.length + ss.length ≤ N →
      (enqueueMany opts lane k ss).2 = none
      ∧ lookupLane (enqueueMany opts lane k ss).1 k
          = some ⟨Status.idle, pre ++ ss, none, some N⟩ := by
  intro ss
  induction ss with
  | nil =>
      intro lane pre hl hlen
      simpa [enqueueMany] using hl
  | cons s tl ih =>
      intro lane pre hl hlen
      simp only [List.length_cons] at hlen
      have hq : getQueue opts lane k = (⟨Status.idle, pre, none, some N⟩, lane) := by
        simp [getQueue, hl]
      have hfull : filledQueueB ⟨Status.idle, pre, none, some N⟩ = false := by
        simp [filledQueueB]
        omega
      have henq : enqueue opts lane k s
          = (setLane lane k ⟨Status.idle, pre ++ [s], none, some N⟩, none) := by
        simp [enqueue, hq, hfull]
      have hrec := ih (setLane lane k ⟨Status.idle, pre ++ [s], none, some N⟩)
        (pre ++ [s]) (lookup_setLane_self lane k _) (by simp; omega)
      refine ⟨?_, ?_⟩
      · simpa [enqueueMany, henq] using hrec.1
      · have := hrec.2
        simpa [enqueueMany, henq, List.append_assoc] using this

/-- C2: throttling.  `enqueue` throws `ThrottledError` exactly when
`filledQueue` holds of the (possibly lazily created) queue;
`filledQueue` holds exactly when `slotSize` is set and
`(runningWorker ? 1 : 0) + |slots| ≥ slotSize` (a lane with `slotSize`
absent is never full); a rejected call leaves the registry untouched; and
on a lane with `slotSize = N`, empty and not running, `N` enqueues succeed
and fill the lane in order, after which the `(N+1)`-th enqueue fails with
`throttled` and changes nothing. -/
theorem C2_throttling :
    (∀ (opts : Options) (lane : LaneReg) (key : String) (slot : Slot),
      (enqueue opts lane key slot).2 = some DangoError.throttled
        ↔ filledQueueB (getQueue opts lane key).1 = true)
    ∧ (∀ q : Queue, filledQueueB q = true
        ↔ ∃ n, q.slotSize = some n
            ∧ n ≤ (if q.runningWorker.isSome then 1 else 0) + q.slots.length)
    ∧ (∀ q : Queue, q.slotSize = none → filledQueueB q = false)
    ∧ (∀ (opts : Options) (lane : LaneReg) (key : String) (slot : Slot) (q : Queue),
        lookupLane lane key = some q → filledQueueB q = true →
        enqueue opts lane key slot = (lane, some DangoError.throttled))
    ∧ (∀ (opts : Options) (k : String) (N : Nat) (ss : List Slot) (s : Slot),
        ss.length = N →
        (enqueueMany opts [(k, ⟨Status.idle, [], none, some N⟩)] k ss).2 = none
        ∧ lookupLane
            (enqueueMany opts [(k, ⟨Status.idle, [], none, some N⟩)] k ss).1 k
            = some ⟨Status.idle, ss, none, some N⟩
        ∧ enqueue opts
            (enqueueMany opts [(k, ⟨Status.idle, [], none, some N⟩)] k ss).1 k s
            = ((enqueueMany opts [(k, ⟨Status.idle, [], none, some N⟩)] k ss).1,
               some DangoError.throttled)) := by
  refine ⟨?_, ?_, ?_, ?_, ?_⟩
  · intro opts lane key slot
    by_cases hf : filledQueueB (getQueue opts lane key).1 = true
    · simp [enqueue, hf]
    · simp only [Bool.not_eq_true] at hf
      simp [enqueue, hf]
  · intro q
    cases hs : q.slotSize with
    | none => simp [filledQueueB, hs]
    | some n => simp [filledQueueB, hs]
  · intro q hs
    simp [filledQueueB, hs]
  · intro opts lane key slot q hl hf
    simp [enqueue, getQueue, hl, hf]
  · intro opts k N ss s hlen
    have hbase : lookupLane [(k, (⟨Status.idle, [], none, some N⟩ : Queue))] k
        = some ⟨Status.idle, [], none, some N⟩ := by
      simp [lookupLane]
    have h := enqueueMany_below_cap opts k N ss
      [(k, ⟨Status.idle, [], none, some N⟩)] [] hbase (by simpa using hlen.le)
    refine ⟨h.1, by simpa using h.2, ?_⟩
    have hfull : filledQueueB ⟨Status.idle, ss, none, some N⟩ = true := by
      simp [filledQueueB, hlen]
    have := h.2
    simp only [List.nil_append] at this
    simp [enqueue, getQueue, this, hfull]

/-- Witness for C2: lane `"k"` with `slotSize = 1`; one enqueue succeeds,
the second is throttled and leaves the registry unchanged. -/
theorem C2_throttling_witness :
    (enqueueMany [] [("k", ⟨Status.idle, [], none, some 1⟩)] "k" [⟨0⟩]).2 = none
    ∧ lookupLane
        (enqueueMany [] [("k", ⟨Status.idle, [], none, some 1⟩)] "k" [⟨0⟩]).1 "k"
        = some ⟨Status.idle, [⟨0⟩], none, some 1⟩
    ∧ enqueue []
        (enqueueMany [] [("k", ⟨Status.idle, [], none, some 1⟩)] "k" [⟨0⟩]).1 "k" ⟨1⟩
        = ((enqueueMany [] [("k", ⟨Status.idle, [], none, some 1⟩)] "k" [⟨0⟩]).1,
           some DangoError.throttled) :=
  C2_throttling.2.2.2.2 [] "k" 1 [⟨0⟩] ⟨1⟩ rfl

/-! ## Recovery, driver completion and events -/

/-- C3: recovery repair.  A persisted lane restored with
`status = running` and `runningWorker = some s` comes back idle, with no
running worker and `s` reinserted at the head of `slots`; a lane restored
with `status = idle` is unchanged by the repair. -/
theorem C3_recovery_repair :
    (∀ (lane : LaneReg) (k : String) (q : Queue) (s : Slot),
      lookupLane lane k = some q →
      q.status = Status.running → q.runningWorker = some s →
      lookupLane (restore lane) k
        = some ⟨Status.idle, s :: q.slots, none, q.slotSize⟩)
    ∧ (∀ (lane : LaneReg) (k : String) (q : Queue),
        lookupLane lane k = some q → q.status = Status.idle →
        lookupLane (restore lane) k = some q) := by
  constructor
  · intro lane k q s hl hrun hrw
    obtain ⟨qs, sl, rw0, sz⟩ := q
    simp only at hrun hrw
    subst hrun
    subst hrw
    rw [lookup_restore, hl]
    rfl
  · intro lane k q hl hidle
    obtain ⟨qs, sl, rw0, sz⟩ := q
    simp only at hidle
    subst hidle
    rw [lookup_restore, hl]
    rfl

/-- Witness for C3: lane `"X"` persisted mid-execution with
`runningWorker = slot 0` and `slots = [slot 1]` is repaired to
`slots = [slot 0, slot 1]`, idle, no running worker. -/
theorem C3_recovery_repair_witness :
    lookupLane
      (restore [("X", ⟨Status.running, [⟨1⟩], some ⟨0⟩, none⟩)]) "X"
      = some ⟨Status.idle, ⟨0⟩ :: [⟨1⟩], none, none⟩ :=
  C3_recovery_repair.1 [("X", ⟨Status.running, [⟨1⟩], some ⟨0⟩, none⟩)]
    "X" ⟨Status.running, [⟨1⟩], some ⟨0⟩, none⟩ ⟨0⟩ rfl rfl rfl

/-- C4: unconditional completion.  Whatever the settlement of
`worker.perform()`, a lane that starts an execution on a tick finishes the
tick idle, with `runningWorker` cleared, the `done` event published last,
and the dequeued head removed from `slots`. -/
theorem C4_unconditional_completion (q : Queue) (s : Slot) (rest : List Slot)
    (o : Except Nat Unit)
    (hs : q.status = Status.idle) (hq : q.slots = s :: rest) :
    (executeLane q o).1.status = Status.idle
    ∧ (executeLane q o).1.runningWorker = none
    ∧ (executeLane q o).2.1.getLast? = some (Event.done, s)
    ∧ (executeLane q o).1.slots = rest := by
  cases o with
  | ok u => simp [executeLane, hs, hq]
  | error e => simp [executeLane, hs, hq]

/-- Witness for C4 at a failing execution of slot `0`. -/
theorem C4_unconditional_completion_witness :
    (executeLane ⟨Status.idle, [⟨0⟩], none, none⟩ (Except.error 7)).1.status
      = Status.idle
    ∧ (executeLane ⟨Status.idle, [⟨0⟩], none, none⟩ (Except.error 7)).1.runningWorker
      = none
    ∧ (executeLane ⟨Status.idle, [⟨0⟩], none, none⟩ (Except.error 7)).2.1.getLast?
      = some (Event.done, ⟨0⟩)
    ∧ (executeLane ⟨Status.idle, [⟨0⟩], none, none⟩ (Except.error 7)).1.slots = [] :=
  C4_unconditional_completion ⟨Status.idle, [⟨0⟩], none, none⟩ ⟨0⟩ []
    (Except.error 7) rfl rfl

/-- C5: worker failure containment.  A rejected `perform()` is caught: the
lane's tick still returns a value (the error surfaces only in the
`console.warn` log and the `fail` event), `success` is never published for
that execution, and a whole-registry tick processes every lane regardless
of any lane's failure. -/
theorem C5_worker_failure_containment :
    (∀ (q : Queue) (s : Slot) (rest : List Slot) (e : Nat),
      q.status = Status.idle → q.slots = s :: rest →
      executeLane q (Except.error e)
        = ({ q with status := Status.idle, slots := rest, runningWorker := none },
           [(Event.run, s), (Event.fail, s), (Event.done, s)], [e])
      ∧ (Event.success, s) ∉ (executeLane q (Except.error e)).2.1)
    ∧ (∀ (lane : LaneReg) (o : String → Except Nat Unit),
        (executeAll lane o).1
          = lane.map (fun p => (p.1, (executeLane p.2 (o p.1)).1))) := by
  constructor
  · intro q s rest e hs hq
    refine ⟨by simp [executeLane, hs, hq], ?_⟩
    simp [executeLane, hs, hq]
  · intro lane o
    induction lane with
    | nil => simp [executeAll]
    | cons p rest ih => simp [executeAll, ih]

/-- Witness for C5 at a failing execution of slot `0` with error `7`. -/
theorem C5_worker_failure_containment_witness :
    executeLane ⟨Status.idle, [⟨0⟩], none, none⟩ (Except.error 7)
      = (⟨Status.idle, [], none, none⟩,
         [(Event.run, ⟨0⟩), (Event.fail, ⟨0⟩), (Event.done, ⟨0⟩)], [7])
    ∧ (Event.success, ⟨0⟩)
        ∉ (executeLane ⟨Status.idle, [⟨0⟩], none, none⟩ (Except.error 7)).2.1 :=
  C5_worker_failure_containment.1 ⟨Status.idle, [⟨0⟩], none, none⟩ ⟨0⟩ [] 7 rfl rfl

/-- C6: success event ordering.  A fulfilled execution publishes exactly
`run`, then `success`, then `done`, each once, each carrying the dequeued
slot itself. -/
theorem C6_success_event_order (q : Queue) (s : Slot) (rest : List Slot)
    (hs : q.status = Status.idle) (hq : q.slots = s :: rest) :
    (executeLane q (Except.ok ())).2.1
      = [(Event.run, s), (Event.success, s), (Event.done, s)] := by
  simp [executeLane, hs, hq]

/-- Witness for C6 at a fulfilled execution of slot `0`. -/
theorem C6_success_event_order_witness :
    (executeLane ⟨Status.idle, [⟨0⟩], none, none⟩ (Except.ok ())).2.1
      = [(Event.run, ⟨0⟩), (Event.success, ⟨0⟩), (Event.done, ⟨0⟩)] :=
  C6_success_event_order ⟨Status.idle, [⟨0⟩], none, none⟩ ⟨0⟩ [] rfl rfl

/-! ## FIFO round trip, dequeue totality, termination frame -/

/-- C7: FIFO single-element round trip.  On an otherwise-idle lane (empty
`slots`, no running worker, capacity not zero — the configured `slotSize`
is documented as a positive integer), `enqueue` then `dequeue` hands back
exactly the enqueued slot and returns the registry to its original value.
In general `enqueue` appends at the tail and `dequeue` removes from the
head. -/
theorem C7_fifo_roundtrip :
    (∀ (opts : Options) (lane : LaneReg) (k : String) (q : Queue) (s : Slot),
      lookupLane lane k = some q → q.slots = [] → q.runningWorker = none →
      (∀ n, q.slotSize = some n → 0 < n) →
      (enqueue opts lane k s).2 = none
      ∧ dequeue (enqueue opts lane k s).1 k = Except.ok (some s, lane))
    ∧ (∀ (opts : Options) (lane : LaneReg) (k : String) (q : Queue) (s : Slot),
        lookupLane lane k = some q → filledQueueB q = false →
        enqueue opts lane k s
          = (setLane lane k { q with slots := q.slots ++ [s] }, none))
    ∧ (∀ (lane : LaneReg) (k : String) (q : Queue) (s : Slot) (rest : List Slot),
        lookupLane lane k = some q → q.slots = s :: rest →
        dequeue lane k = Except.ok (some s, setLane lane k { q with slots := rest })) := by
  have happend : ∀ (opts : Options) (lane : LaneReg) (k : String) (q : Queue) (s : Slot),
      lookupLane lane k = some q → filledQueueB q = false →
      enqueue opts lane k s
        = (setLane lane k { q with slots := q.slots ++ [s] }, none) := by
    intro opts lane k q s hl hf
    simp [enqueue, getQueue, hl, hf]
  refine ⟨?_, happend, ?_⟩
  · intro opts lane k q s hl hsl hrw hsz
    obtain ⟨qs, sl, rw0, sz⟩ := q
    simp only at hsl hrw
    subst hsl
    subst hrw
    have hf : filledQueueB ⟨qs, [], none, sz⟩ = false := by
      cases sz with
      | none => simp [filledQueueB]
      | some n =>
          have := hsz n rfl
          simp [filledQueueB]
          omega
    rw [happend opts lane k _ s hl hf]
    simp only [List.nil_append]
    rw [dequeue, lookup_setLane_self]
    simp only []
    rw [setLane_setLane, setLane_lookup_self lane k _ hl]
    simp
  · intro lane k q s rest hl hq
    simp [dequeue, hl, hq]

/-- Witness for C7: unbounded idle lane `"k"`; enqueue of slot `0` then
dequeue returns slot `0` and the original registry. -/
theorem C7_fifo_roundtrip_witness :
    (enqueue [] [("k", ⟨Status.idle, [], none, none⟩)] "k" ⟨0⟩).2 = none
    ∧ dequeue (enqueue [] [("k", ⟨Status.idle, [], none, none⟩)] "k" ⟨0⟩).1 "k"
        = Except.ok (some ⟨0⟩, [("k", ⟨Status.idle, [], none, none⟩)]) :=
  C7_fifo_roundtrip.1 [] [("k", ⟨Status.idle, [], none, none⟩)] "k"
    ⟨Status.idle, [], none, none⟩ ⟨0⟩ rfl rfl rfl
    (by intro n hn; cases hn)

/-- C8 counterexample: the claim says `dequeue` never fails, even for a key
never referenced before.  On the empty registry `this.lane["job"]` is
`undefined`, so `dequeue("job")` reads `.slots` of `undefined` and raises a
`TypeError`. -/
theorem C8_counterexample :
    dequeue [] "job" = Except.error DangoError.typeError := rfl

/-- C8 (amended): for every key whose lane exists in the registry,
`dequeue` does not fail — it removes and returns the head of `slots`, or
returns `undefined` leaving the registry unchanged when the lane is empty.
On a never-referenced key it instead throws a `TypeError`
(`C8_counterexample`). -/
theorem C8_dequeue_total_on_known_lane (lane : LaneReg) (k : String) (q : Queue)
    (h : lookupLane lane k = some q) :
    (q.slots = [] → dequeue lane k = Except.ok (none, lane))
    ∧ (∀ s rest, q.slots = s :: rest →
        dequeue lane k = Except.ok (some s, setLane lane k { q with slots := rest }))
    ∧ (∃ r, dequeue lane k = Except.ok r) := by
  refine ⟨?_, ?_, ?_⟩
  · intro hsl
    simp [dequeue, h, hsl]
  · intro s rest hsl
    simp [dequeue, h, hsl]
  · cases hsl : q.slots with
    | nil => exact ⟨(none, lane), by simp [dequeue, h, hsl]⟩
    | cons s rest => exact ⟨(some s, setLane lane k { q with slots := rest }), by simp [dequeue, h, hsl]⟩

/-- Witness for C8 (amended) on lane `"k"` holding one slot. -/
theorem C8_dequeue_total_witness :
    (([⟨3⟩] : List Slot) = [] →
      dequeue [("k", ⟨Status.idle, [⟨3⟩], none, none⟩)] "k"
        = Except.ok (none, [("k", ⟨Status.idle, [⟨3⟩], none, none⟩)]))
    ∧ (∀ s rest, ([⟨3⟩] : List Slot) = s :: rest →
        dequeue [("k", ⟨Status.idle, [⟨3⟩], none, none⟩)] "k"
          = Except.ok (some s,
              setLane [("k", ⟨Status.idle, [⟨3⟩], none, none⟩)] "k"
                ⟨Status.idle, rest, none, none⟩))
    ∧ (∃ r, dequeue [("k", ⟨Status.idle, [⟨3⟩], none, none⟩)] "k" = Except.ok r) :=
  C8_dequeue_total_on_known_lane [("k", ⟨Status.idle, [⟨3⟩], none, none⟩)] "k"
    ⟨Status.idle, [⟨3⟩], none, none⟩ rfl

/-- C9: `terminateRunningWorker` frame property.  On an existing lane with
no running worker it makes no `terminate()` call and leaves the whole
registry (hence `slots`, `status`, `runningWorker`) unchanged; on a lane
with a running worker it calls that slot's worker's `terminate()` and
likewise changes nothing.  It is a total function — nothing is thrown. -/
theorem C9_terminate_frame (opts : Options) (lane : LaneReg) (k : String)
    (q : Queue) (h : lookupLane lane k = some q) :
    (q.runningWorker = none → terminateRunningWorker opts lane k = (none, lane))
    ∧ (∀ s, q.runningWorker = some s →
        terminateRunningWorker opts lane k = (some s, lane)) := by
  constructor
  · intro hrw
    simp [terminateRunningWorker, getQueue, h, hrw]
  · intro s hrw
    simp [terminateRunningWorker, getQueue, h, hrw]

/-- Witness for C9: both branches on concrete lanes. -/
theorem C9_terminate_frame_witness :
    ((none : Option Slot) = none →
      terminateRunningWorker [] [("k", ⟨Status.idle, [⟨2⟩], none, none⟩)] "k"
        = (none, [("k", ⟨Status.idle, [⟨2⟩], none, none⟩)]))
    ∧ (∀ s, (none : Option Slot) = some s →
        terminateRunningWorker [] [("k", ⟨Status.idle, [⟨2⟩], none, none⟩)] "k"
          = (some s, [("k", ⟨Status.idle, [⟨2⟩], none, none⟩)])) :=
  C9_terminate_frame [] [("k", ⟨Status.idle, [⟨2⟩], none, none⟩)] "k"
    ⟨Status.idle, [⟨2⟩], none, none⟩ rfl

/-- C10: the persistence variant's `async buildQueue`.  For a key not yet
in the registry, `getQueue` hands back the `Promise` returned by the
`async` `buildQueue`; the first `enqueue` on such a key therefore reads
`.slots` on a `Promise` value and throws a `TypeError` instead of using a
lazily created queue; and the queue `buildQueue` stores always has
`slotSize = null`, regardless of configuration. -/
theorem C10_async_buildQueue (lane : LaneReg) (k : String) (s : Slot)
    (h : lookupLane lane k = none) :
    (getQueueP lane k).1 = QueueOrPromise.promise buildQueueP
    ∧ (enqueueP lane k s).2 = some DangoError.typeError
    ∧ lookupLane (enqueueP lane k s).1 k = some buildQueueP
    ∧ buildQueueP.slotSize = none := by
  have hget : getQueueP lane k
      = (QueueOrPromise.promise buildQueueP, setLane lane k buildQueueP) := by
    simp [getQueueP, h]
  have hfil : filledQueueP (setLane lane k buildQueueP) k
      = Except.ok (false, setLane lane k buildQueueP) := by
    simp [filledQueueP, getQueueP, lookup_setLane_self, filledQueueB, buildQueueP]
  refine ⟨by simp [hget], ?_, ?_, rfl⟩
  · simp [enqueueP, hget, hfil]
  · simp [enqueueP, hget, hfil, lookup_setLane_self]

/-- Witness for C10: first `enqueue` of slot `0` under key `"job"` on a
fresh scheduler throws a `TypeError`. -/
theorem C10_async_buildQueue_witness :
    (getQueueP [] "job").1 = QueueOrPromise.promise buildQueueP
    ∧ (enqueueP [] "job" ⟨0⟩).2 = some DangoError.typeError
    ∧ lookupLane (enqueueP [] "job" ⟨0⟩).1 "job" = some buildQueueP
    ∧ buildQueueP.slotSize = none :=
  C10_async_buildQueue [] "job" ⟨0⟩ rfl

end Dango
